import Mathlib

/-!
Verification of the group-membership mutation pipeline of the
stu-website-service repository.

The definitions below shallowly embed the repository's TypeScript
repositories and the `UserGroupRelationSubscriber`.  Database tables are
lists of rows; a repository method becomes a function from a database
state to a result together with a new state; a method that can throw
returns `Except`.  Operations whose implementation is not part of the
source snapshot (the `GroupService` methods) are modelled from the
specification text and carry a doc comment saying so.
-/

set_option autoImplicit false

namespace StuWebsite

/-- Event types of the change-data-capture feed (`EventType` in
`update.service`). -/
inductive EventType
  | insert
  | update
  | remove
deriving DecidableEq, Repr

/-- Entity kinds tracked by the feed (`AffectedObject`); only the
`USER_GROUP_RELATION` kind appears in the embedded code. -/
inductive AffectedObject
  | userGroupRelation
deriving DecidableEq, Repr

/-- Domain-level errors of the pipeline (`EntityNotFoundError`,
`ConflictException`, name-space exhaustion). -/
inductive DomainError
  | notFound
  | conflict (msg : String)
  | nameSpaceExhausted (bound : Nat)
deriving DecidableEq, Repr

/-- A `UserGroupRelation` row: the membership edge between a participant
(identified by `userId`) and a group. -/
structure UserGroupRelation where
  id : Nat
  userId : String
  groupId : String
deriving DecidableEq, Repr

/-- The fields of the `Group` entity used by the embedded operations. -/
structure Group where
  id : String
  courseId : String
  name : String
  password : Option String
  isClosed : Bool
deriving DecidableEq, Repr

/-- An `UpdateMessage` row (`UpdateMessageDto`): one change record of the
CDC feed. -/
structure UpdateMessageDto where
  type : EventType
  affectedObject : AffectedObject
  courseId : String
  entityId : String
  entityId_relation : String
deriving DecidableEq, Repr

/-- The database state seen by `UserGroupRelationSubscriber`: the
membership table, the group table and the `UpdateMessage` table. -/
structure GroupDb where
  relations : List UserGroupRelation
  groups : List Group
  messages : List UpdateMessageDto
deriving DecidableEq, Repr

/-- Failure mode of the subscriber: dereferencing a field of an entity
that the reload query did not return (`undefined` access in TS). -/
inductive SubscriberError
  | nullDereference
deriving DecidableEq, Repr

/-- Reload query `repository.findOne(entity.id, { relations: ["group"] })`: look the
relation row up by id and join its group.  The joined group is `none`
when the group row is absent (left join). -/
def reloadEntityWithRequiredRelations (db : GroupDb) (id : Nat) :
    Option (UserGroupRelation × Option Group) :=
  (db.relations.find? (fun r => r.id == id)).map
    (fun r => (r, db.groups.find? (fun g => g.id == r.groupId)))

/-- Method `UserGroupRelationSubscriber.createMessage`: builds the
`UpdateMessageDto` from the reloaded entity.  Accessing
`entity.group.courseId` when the reload returned nothing, or when the
group relation is not loaded, is a null dereference. -/
def createMessage (type : EventType)
    (entity : Option (UserGroupRelation × Option Group)) :
    Except SubscriberError UpdateMessageDto :=
  match entity with
  | none => .error .nullDereference
  | some (_, none) => .error .nullDereference
  | some (r, some g) =>
      .ok { type := type
            affectedObject := .userGroupRelation
            courseId := g.courseId
            entityId := r.userId
            entityId_relation := r.groupId }

/-- Common body of the subscriber hooks: reload the entity with its group
relation from the current state, build the message and insert it into the
`UpdateMessage` table. -/
def afterEvent (type : EventType) (db : GroupDb) (entityId : Nat) :
    Except SubscriberError GroupDb := do
  let msg ← createMessage type (reloadEntityWithRequiredRelations db entityId)
  .ok { db with messages := db.messages ++ [msg] }

/-- Insert of a membership edge followed by the subscriber's
`afterInsert` hook, which runs against the state that already contains
the new row. -/
def insertUserGroupRelation (db : GroupDb) (r : UserGroupRelation) :
    Except SubscriberError GroupDb :=
  afterEvent .insert { db with relations := db.relations ++ [r] } r.id

/-- Update of a membership edge followed by the subscriber's
`afterUpdate` hook. -/
def updateUserGroupRelation (db : GroupDb) (r : UserGroupRelation) :
    Except SubscriberError GroupDb :=
  afterEvent .update
    { db with relations := db.relations.map (fun x => if x.id == r.id then r else x) }
    r.id

/-- Removal of a membership edge followed by the subscriber's
`afterRemove` hook; the hook runs after the DELETE, so the reload query
executes against a state in which the row no longer exists. -/
def removeUserGroupRelation (db : GroupDb) (id : Nat) :
    Except SubscriberError GroupDb :=
  afterEvent .remove { db with relations := db.relations.filter (fun r => r.id != id) } id

/-- A state with one membership edge (row id 1, user `u1`, group `g1`)
and the corresponding group row of course `c1`. -/
def dbOneMember : GroupDb :=
  { relations := [{ id := 1, userId := "u1", groupId := "g1" }]
    groups := [{ id := "g1", courseId := "c1", name := "Team1", password := none,
                 isClosed := false }]
    messages := [] }

/-- Same state without the membership edge. -/
def dbNoMember : GroupDb := { dbOneMember with relations := [] }

/-- C1: the subscriber writes exactly one matching Insert record for an
insert, but for a removal the reload-after-delete finds nothing, the
message assembly dereferences a missing entity, and no valid Remove
record is written: inserting the edge (1, u1, g1) appends exactly the
matching Insert message, while removing it from `dbOneMember` fails with
a null dereference instead of appending a Remove message. -/
theorem C1_remove_record_lost :
    insertUserGroupRelation dbNoMember { id := 1, userId := "u1", groupId := "g1" } =
      .ok { dbOneMember with
              messages := [{ type := .insert, affectedObject := .userGroupRelation,
                             courseId := "c1", entityId := "u1",
                             entityId_relation := "g1" }] } ∧
    removeUserGroupRelation dbOneMember 1 = .error .nullDereference := by
  constructor <;> rfl

/-- An `AssignmentRegistration` row: binds a group to an assignment. -/
structure AssignmentRegistration where
  id : Nat
  assignmentId : String
  groupId : String
deriving DecidableEq, Repr

/-- A `GroupRegistrationRelation` row: one registered member of a
registration. -/
structure GroupRegistrationRelation where
  assignmentRegistrationId : Nat
  participantId : Nat
deriving DecidableEq, Repr

/-- The database state seen by `AssignmentRegistrationRepository`. -/
structure RegDb where
  registrations : List AssignmentRegistration
  groupRelations : List GroupRegistrationRelation
  nextId : Nat
deriving DecidableEq, Repr

/-- Method `tryGetRegistration`: the registration for `(assignmentId, groupId)`,
if any. -/
def tryGetRegistration (db : RegDb) (assignmentId groupId : String) :
    Option AssignmentRegistration :=
  db.registrations.find? (fun r => r.assignmentId == assignmentId && r.groupId == groupId)

/-- Method `AssignmentRegistrationRepository.createRegistration`: if the group
has no registration yet, creates one together with a member row for the
participant; otherwise inserts a member row into the existing
registration.  The raw insert hits the unique constraint on the member
pair when the participant is already registered — the method's own doc
comment says it throws in that case. -/
def createRegistration (db : RegDb) (assignmentId groupId : String)
    (participantId : Nat) : Except DomainError RegDb :=
  match tryGetRegistration db assignmentId groupId with
  | none =>
      .ok { registrations := db.registrations ++
              [{ id := db.nextId, assignmentId := assignmentId, groupId := groupId }]
            groupRelations := db.groupRelations ++
              [{ assignmentRegistrationId := db.nextId, participantId := participantId }]
            nextId := db.nextId + 1 }
  | some reg =>
      if db.groupRelations.any
          (fun rel => rel.assignmentRegistrationId == reg.id &&
                      rel.participantId == participantId) then
        .error (.conflict "user is already registered")
      else
        .ok { db with groupRelations := db.groupRelations ++
                [{ assignmentRegistrationId := reg.id, participantId := participantId }] }

/-- Registration of a group with a list of members: one
`createRegistration` call per member, stopping at the first failure. -/
def registerGroup (db : RegDb) (assignmentId groupId : String) :
    List Nat → Except DomainError RegDb
  | [] => .ok db
  | p :: ps => do
      let db' ← createRegistration db assignmentId groupId p
      registerGroup db' assignmentId groupId ps

/-- The member rows of the registration for `(assignmentId, groupId)`. -/
def membersOf (db : RegDb) (assignmentId groupId : String) : Option (List Nat) :=
  (tryGetRegistration db assignmentId groupId).map
    (fun r => (db.groupRelations.filter
        (fun rel => rel.assignmentRegistrationId == r.id)).map
      (fun rel => rel.participantId))

/-- At most one registration per `(assignmentId, groupId)` pair. -/
def uniquePerPair (db : RegDb) : Prop :=
  ∀ r1 ∈ db.registrations, ∀ r2 ∈ db.registrations,
    r1.assignmentId = r2.assignmentId → r1.groupId = r2.groupId → r1 = r2

/-- Invariant: `createRegistration` preserves the one-registration-per-pair
invariant. -/
theorem createRegistration_uniquePerPair (db : RegDb) (a g : String) (p : Nat)
    (db' : RegDb) (hu : uniquePerPair db)
    (h : createRegistration db a g p = .ok db') : uniquePerPair db' := by
  unfold createRegistration at h
  cases hfind : tryGetRegistration db a g with
  | none =>
      rw [hfind] at h
      injection h with h
      subst h
      have hnone := hfind
      unfold tryGetRegistration at hnone
      rw [List.find?_eq_none] at hnone
      intro r1 hr1 r2 hr2 ha hg
      simp only [List.mem_append, List.mem_singleton] at hr1 hr2
      rcases hr1 with hr1 | hr1 <;> rcases hr2 with hr2 | hr2
      · exact hu r1 hr1 r2 hr2 ha hg
      · exfalso
        apply hnone r1 hr1
        subst hr2
        simp_all
      · exfalso
        apply hnone r2 hr2
        subst hr1
        simp_all
      · rw [hr1, hr2]
  | some reg =>
      rw [hfind] at h
      dsimp only at h
      by_cases hdup : db.groupRelations.any
          (fun rel => rel.assignmentRegistrationId == reg.id &&
                      rel.participantId == p) = true
      · rw [if_pos hdup] at h
        cases h
      · rw [if_neg hdup] at h
        injection h with h
        subst h
        exact hu

/-- Invariant: `registerGroup` preserves the one-registration-per-pair invariant. -/
theorem registerGroup_uniquePerPair (a g : String) :
    ∀ (ms : List Nat) (db db' : RegDb), uniquePerPair db →
      registerGroup db a g ms = .ok db' → uniquePerPair db' := by
  intro ms
  induction ms with
  | nil =>
      intro db db' hu h
      unfold registerGroup at h
      injection h with h
      subst h
      exact hu
  | cons p ps ih =>
      intro db db' hu h
      unfold registerGroup at h
      cases hc : createRegistration db a g p with
      | error e => rw [hc] at h; cases h
      | ok db1 =>
          rw [hc] at h
          exact ih db1 db' (createRegistration_uniquePerPair db a g p db1 hu hc) h

/-- An empty registration store. -/
def emptyRegDb : RegDb := { registrations := [], groupRelations := [], nextId := 0 }

/-- The store after registering members 1 and 2 of group `g` for
assignment `a` starting from the empty store. -/
def regDbAfterFirst : RegDb :=
  { registrations := [{ id := 0, assignmentId := "a", groupId := "g" }]
    groupRelations := [{ assignmentRegistrationId := 0, participantId := 1 },
                       { assignmentRegistrationId := 0, participantId := 2 }]
    nextId := 1 }

/-- C3 (amended): at most one registration per `(assignmentId, groupId)`
pair is preserved by `registerGroup`; registering a fresh group creates
the registration with the given members, but re-registering with a
member that is already present raises the documented duplicate error
instead of being a no-op, so `registerGroup(a, g, [1,2])` followed by
`registerGroup(a, g, [2,3])` fails on 2 and leaves the member set
`{1,2}`. -/
theorem C3_registration_unique (db : RegDb) (a g : String) (ms : List Nat) :
    (uniquePerPair db → ∀ db', registerGroup db a g ms = .ok db' → uniquePerPair db') ∧
    registerGroup emptyRegDb "a" "g" [1, 2] = .ok regDbAfterFirst ∧
    membersOf regDbAfterFirst "a" "g" = some [1, 2] ∧
    registerGroup regDbAfterFirst "a" "g" [2, 3] =
      .error (.conflict "user is already registered") := by
  refine ⟨?_, rfl, rfl, rfl⟩
  intro hu db' h
  exact registerGroup_uniquePerPair a g ms db db' hu h

/-- Witness for C3: the invariant transfer applied to the concrete first
registration. -/
theorem C3_registration_unique_witness : uniquePerPair regDbAfterFirst := by
  have h := C3_registration_unique emptyRegDb "a" "g" [1, 2]
  refine h.1 ?_ regDbAfterFirst h.2.1
  intro r1 hr1
  simp [emptyRegDb] at hr1

/-- Counterexample for C3 as stated: the second registration call does
not merge the missing member 3 into the pair's member set — it fails
with the duplicate-member error on the already-present member 2, so no
state with member set `{1,2,3}` is ever produced. -/
theorem C3_counterexample :
    registerGroup emptyRegDb "a" "g" [1, 2] = .ok regDbAfterFirst ∧
    registerGroup regDbAfterFirst "a" "g" [2, 3] =
      .error (.conflict "user is already registered") := by
  constructor <;> rfl

/-- Lookup `findOneOrFail({ where: { assignmentId, userId } })` of
`removeRegistrationForUser`: the first registration of the assignment
that the user belongs to (the entity files are not part of the source
snapshot, so the user is identified with their participant id and the
membership is read from the member rows). -/
def findRegistrationOfUser (db : RegDb) (assignmentId : String) (userId : Nat) :
    Option AssignmentRegistration :=
  db.registrations.find? (fun r => r.assignmentId == assignmentId &&
    db.groupRelations.any
      (fun rel => rel.assignmentRegistrationId == r.id && rel.participantId == userId))

/-- Method `removeRegistrationForUser`: `findOneOrFail` throws `NotFound` when
the user has no registration; otherwise the registration is removed and
the truthiness of the removed entity — always `true` — is returned. -/
def removeRegistrationForUser (db : RegDb) (assignmentId : String) (userId : Nat) :
    Except DomainError (Bool × RegDb) :=
  match findRegistrationOfUser db assignmentId userId with
  | none => .error .notFound
  | some r =>
      .ok (true,
        { db with
            registrations := db.registrations.filter (fun x => x.id != r.id)
            groupRelations :=
              db.groupRelations.filter (fun rel => rel.assignmentRegistrationId != r.id) })

/-- Method `removeRegistrationForGroup`: returns `false` when the pair has no
registrations; otherwise removes them and returns the truthiness of the
removed array — always `true`, never the number of rows. -/
def removeRegistrationForGroup (db : RegDb) (assignmentId groupId : String) :
    Bool × RegDb :=
  let regs := db.registrations.filter
    (fun r => r.assignmentId == assignmentId && r.groupId == groupId)
  if regs.length == 0 then (false, db)
  else
    (true,
      { db with
          registrations := db.registrations.filter
            (fun r => !(r.assignmentId == assignmentId && r.groupId == groupId))
          groupRelations := db.groupRelations.filter
            (fun rel => !(regs.any (fun r => r.id == rel.assignmentRegistrationId))) })

/-- Method `removeRegistrations`: `delete({ assignmentId })` removes every
registration of the assignment; the method returns void (unit), not a
count. -/
def removeRegistrations (db : RegDb) (assignmentId : String) : Unit × RegDb :=
  let removed := db.registrations.filter (fun r => r.assignmentId == assignmentId)
  ((),
    { db with
        registrations := db.registrations.filter (fun r => r.assignmentId != assignmentId)
        groupRelations := db.groupRelations.filter
          (fun rel => !(removed.any (fun r => r.id == rel.assignmentRegistrationId))) })

/-- C7 (amended): the group variant returns whether at least one
registration was removed (a boolean, not a count) and does not fail when
nothing matches, the all-registrations variant returns nothing and
removes every matching registration without failing, and only the
single-participant variant fails with `NotFound` when no registration
exists for the participant and assignment. -/
theorem C7_removal_variants (db : RegDb) (a g : String) (u : Nat) :
    ((removeRegistrationForGroup db a g).1 = true ↔
      (db.registrations.filter
        (fun r => r.assignmentId == a && r.groupId == g)).length ≠ 0) ∧
    ((removeRegistrationForGroup db a g).1 = false →
      (removeRegistrationForGroup db a g).2 = db) ∧
    (removeRegistrationForUser db a u = .error .notFound ↔
      findRegistrationOfUser db a u = none) ∧
    ((removeRegistrations db a).2.registrations.filter
      (fun r => r.assignmentId == a)) = [] := by
  refine ⟨?_, ?_, ?_, ?_⟩
  · by_cases h0 : (db.registrations.filter
        (fun r => r.assignmentId == a && r.groupId == g)).length = 0
    · simp [removeRegistrationForGroup, h0]
    · simp [removeRegistrationForGroup, h0]
  · by_cases h0 : (db.registrations.filter
        (fun r => r.assignmentId == a && r.groupId == g)).length = 0
    · simp [removeRegistrationForGroup, h0]
    · simp [removeRegistrationForGroup, h0]
  · cases hf : findRegistrationOfUser db a u with
    | none => simp [removeRegistrationForUser, hf]
    | some r => simp [removeRegistrationForUser, hf]
  · rw [List.filter_eq_nil_iff]
    intro x hx
    have hne := (List.mem_filter.mp hx).2
    simp_all

/-- Witness for C7: on the empty store, the single-participant variant
fails with `NotFound` while the group variant reports `false` and leaves
the store unchanged. -/
theorem C7_removal_variants_witness :
    removeRegistrationForUser emptyRegDb "a" 1 = .error .notFound ∧
    (removeRegistrationForGroup emptyRegDb "a" "g").1 = false ∧
    (removeRegistrationForGroup emptyRegDb "a" "g").2 = emptyRegDb := by
  have h := C7_removal_variants emptyRegDb "a" "g" 1
  have hfalse : (removeRegistrationForGroup emptyRegDb "a" "g").1 = false := by
    cases hbv : (removeRegistrationForGroup emptyRegDb "a" "g").1
    · rfl
    · exact absurd rfl (h.1.mp hbv)
  exact ⟨h.2.2.1.mpr rfl, hfalse, h.2.1 hfalse⟩

/-- A store with one registration for assignment `a`. -/
def regDbOneMatch : RegDb :=
  { registrations := [{ id := 0, assignmentId := "a", groupId := "g1" }]
    groupRelations := []
    nextId := 1 }

/-- A store with two registrations for assignment `a`. -/
def regDbTwoMatch : RegDb :=
  { registrations := [{ id := 0, assignmentId := "a", groupId := "g1" },
                      { id := 1, assignmentId := "a", groupId := "g2" }]
    groupRelations := []
    nextId := 2 }

/-- Counterexample for C7 as stated: the all-registrations variant does
not return the count removed — removing one registration and removing
two return the identical (unit) value, although in both runs every
matching registration was in fact deleted. -/
theorem C7_counterexample :
    (regDbOneMatch.registrations.filter (fun r => r.assignmentId == "a")).length = 1 ∧
    (regDbTwoMatch.registrations.filter (fun r => r.assignmentId == "a")).length = 2 ∧
    (removeRegistrations regDbOneMatch "a").2.registrations = [] ∧
    (removeRegistrations regDbTwoMatch "a").2.registrations = [] ∧
    (removeRegistrations regDbOneMatch "a").1 = (removeRegistrations regDbTwoMatch "a").1 := by
  refine ⟨rfl, rfl, rfl, rfl, rfl⟩

/-- A `CourseUserRelation` row: a user signed up to a course with a
role. -/
structure CourseUserRelation where
  courseId : String
  userId : String
  role : String
deriving DecidableEq, Repr

/-- A store-level failure, identified by its SQLSTATE code; `"23505"` is
the unique-constraint violation. -/
structure DbError where
  code : String
deriving DecidableEq, Repr

/-- Method `CourseUserRelationRepository.addUserToCourse`: builds the relation
and saves it.  The save's rejection is caught; a `"23505"` error is
rethrown as a `ConflictException`, while the catch handler returns
normally on every other error code, after which the method returns the
relation as if the save had succeeded.  The outcome of the underlying
save is passed in as `saveResult` (`none` = success). -/
def addUserToCourse (saveResult : Option DbError) (courseId userId role : String) :
    Except DomainError CourseUserRelation :=
  let rel : CourseUserRelation := { courseId := courseId, userId := userId, role := role }
  match saveResult with
  | none => .ok rel
  | some e =>
      if e.code == "23505" then
        .error (.conflict "This user is already signed up to the course.")
      else
        .ok rel

/-- C8: evaluation of `addUserToCourse` at a failing store write.  A
unique-constraint violation (code 23505) is surfaced as a structured
Conflict with the "already signed up" message, but any other store error
(here 08006, a connection failure) is swallowed by the catch handler and
the operation reports success with the unsaved relation, contradicting
the claim that Internal errors are propagated for retry. -/
theorem C8_internal_error_swallowed :
    addUserToCourse (some { code := "23505" }) "c1" "u1" "STUDENT" =
      .error (.conflict "This user is already signed up to the course.") ∧
    addUserToCourse (some { code := "08006" }) "c1" "u1" "STUDENT" =
      .ok { courseId := "c1", userId := "u1", role := "STUDENT" } := by
  constructor <;> rfl

end StuWebsite
